import Mathlib

/-!
# Verification of the cloud-foundation-project stack declaration

Shallow embedding of `src/bin/cloud-foundation-project.ts`, a CDK
declaration of a secure static-website topology: a private S3 bucket
(Storage Resource), a `BucketDeployment` (Asset Sync Step), a WAF v2
`CfnWebACL` (Access-Control Policy Set) and a CloudFront `Distribution`
(Edge Distribution).  Each structure below mirrors the fields the source
actually sets; the constant definitions mirror the literal configuration
in the `AleezaStack` constructor.
-/

namespace CloudFoundation

/-- `s3.BucketEncryption` values the source could choose from. -/
inductive BucketEncryption
  | S3_MANAGED
  | KMS
  | UNENCRYPTED
  deriving DecidableEq, Repr

/-- `s3.BucketAccessControl` (only the variants relevant here). -/
inductive BucketAccessControl
  | PRIVATE
  | PUBLIC_READ
  deriving DecidableEq, Repr

/-- `s3.BlockPublicAccess`: the four public-access-block flags. -/
structure BlockPublicAccess where
  blockPublicAcls : Bool
  blockPublicPolicy : Bool
  ignorePublicAcls : Bool
  restrictPublicBuckets : Bool
  deriving DecidableEq, Repr

/-- `s3.BlockPublicAccess.BLOCK_ALL`: every flag enabled. -/
def BlockPublicAccess.BLOCK_ALL : BlockPublicAccess :=
  { blockPublicAcls := true
    blockPublicPolicy := true
    ignorePublicAcls := true
    restrictPublicBuckets := true }

/-- `cdk.RemovalPolicy`. -/
inductive RemovalPolicy
  | DESTROY
  | RETAIN
  deriving DecidableEq, Repr

/-- The `s3.Bucket` props set by the source (lines 131-145). -/
structure Bucket where
  encryption : BucketEncryption
  accessControl : BucketAccessControl
  blockPublicAccess : BlockPublicAccess
  removalPolicy : RemovalPolicy
  autoDeleteObjects : Bool
  websiteIndexDocument : String
  versioned : Bool
  enforceSSL : Bool
  deriving DecidableEq, Repr

/-- The `s3_deployment.BucketDeployment` props set by the source
(lines 152-163).  `destinationBucket` holds the construct id of the
referenced bucket. -/
structure BucketDeployment where
  destinationBucket : String
  sources : List String
  prune : Bool
  retainOnDelete : Bool
  deriving DecidableEq, Repr

/-- A WAF `visibilityConfig` block. -/
structure VisibilityConfig where
  cloudWatchMetricsEnabled : Bool
  metricName : String
  sampledRequestsEnabled : Bool
  deriving DecidableEq, Repr

/-- A WAF rule `overrideAction`. -/
inductive OverrideAction
  | none
  | count
  deriving DecidableEq, Repr

/-- A WAF web-ACL `defaultAction`. -/
inductive DefaultAction
  | allow
  | block
  deriving DecidableEq, Repr

/-- A `managedRuleGroupStatement`: reference to a vendor rule group. -/
structure ManagedRuleGroupStatement where
  vendorName : String
  name : String
  deriving DecidableEq, Repr

/-- One entry of `webAcl.rules` (each sets exactly these fields). -/
structure WafRule where
  name : String
  priority : Nat
  statement : ManagedRuleGroupStatement
  overrideAction : OverrideAction
  visibilityConfig : VisibilityConfig
  deriving DecidableEq, Repr

/-- The `wafv2.CfnWebACL` props set by the source (lines 170-271). -/
structure CfnWebACL where
  aclScope : String
  defaultAction : DefaultAction
  visibilityConfig : VisibilityConfig
  rules : List WafRule
  deriving DecidableEq, Repr

/-- A CloudFront origin, as the source can construct one: either the
`S3BucketOrigin.withOriginAccessControl` helper (scoped OAC credential)
or the plain `S3Origin` mentioned in the source comment.  The payload is
the construct id of the backing bucket. -/
inductive Origin
  | s3BucketOriginWithOAC (bucketId : String)
  | s3OriginPlain (bucketId : String)
  deriving DecidableEq, Repr

/-- The bucket construct id an origin points at. -/
def Origin.bucketId : Origin → String
  | .s3BucketOriginWithOAC b => b
  | .s3OriginPlain b => b

/-- Whether an origin uses the scoped Origin Access Control credential. -/
def Origin.usesOAC : Origin → Bool
  | .s3BucketOriginWithOAC _ => true
  | .s3OriginPlain _ => false

/-- The distribution's `defaultBehavior` block (the source sets only its
`origin` field). -/
structure DefaultBehavior where
  origin : Origin
  deriving DecidableEq, Repr

/-- A reference to another construct by identifier (the source passes
`webAcl.attrArn`, i.e. a deploy-time attribute of the `WebsiteACL`
construct). -/
structure Ref where
  targetId : String
  deriving DecidableEq, Repr

/-- The `cloudfront.Distribution` props set by the source
(lines 282-297).  `additionalBehaviors` is absent from the source, hence
empty. -/
structure Distribution where
  defaultRootObject : String
  defaultBehavior : DefaultBehavior
  additionalBehaviors : List DefaultBehavior
  enableLogging : Bool
  webAclId : Ref
  deriving DecidableEq, Repr

/-- Every origin a distribution binds: the default behavior's origin
followed by any additional behaviors' origins. -/
def Distribution.origins (d : Distribution) : List Origin :=
  d.defaultBehavior.origin :: d.additionalBehaviors.map DefaultBehavior.origin

/-- A declared resource of the stack, tagged with its construct id. -/
inductive Resource
  | bucket (id : String) (b : Bucket)
  | bucketDeployment (id : String) (d : BucketDeployment)
  | webAcl (id : String) (a : CfnWebACL)
  | distribution (id : String) (d : Distribution)
  deriving DecidableEq, Repr

/-- The construct id of a resource. -/
def Resource.cid : Resource → String
  | .bucket i _ => i
  | .bucketDeployment i _ => i
  | .webAcl i _ => i
  | .distribution i _ => i

/-- The construct ids a resource's declaration references (its declared
dependencies): a `BucketDeployment` references its destination bucket; a
`Distribution` references each origin's bucket and the attached web ACL. -/
def Resource.references : Resource → List String
  | .bucket _ _ => []
  | .bucketDeployment _ d => [d.destinationBucket]
  | .webAcl _ _ => []
  | .distribution _ d => d.origins.map Origin.bucketId ++ [d.webAclId.targetId]

/-- `website_bucket` (source lines 131-145). -/
def website_bucket : Bucket :=
  { encryption := BucketEncryption.S3_MANAGED
    accessControl := BucketAccessControl.PRIVATE
    blockPublicAccess := BlockPublicAccess.BLOCK_ALL
    removalPolicy := RemovalPolicy.DESTROY
    autoDeleteObjects := true
    websiteIndexDocument := "index.html"
    versioned := true
    enforceSSL := true }

/-- The `WebsiteFiles` bucket deployment (source lines 152-163). -/
def websiteFiles : BucketDeployment :=
  { destinationBucket := "WebsiteBucket"
    sources := ["../dist"]
    prune := true
    retainOnDelete := true }

/-- The five `webAcl.rules` entries (source lines 178-270). -/
def webAclRules : List WafRule :=
  [ { name := "AWS-AWSManagedRulesCommonRuleSet"
      priority := 1
      statement := { vendorName := "AWS", name := "AWSManagedRulesCommonRuleSet" }
      overrideAction := OverrideAction.none
      visibilityConfig :=
        { cloudWatchMetricsEnabled := true
          metricName := "CommonRuleSet"
          sampledRequestsEnabled := true } }
  , { name := "AWS-AWSManagedRulesAnonymousIpList"
      priority := 2
      statement := { vendorName := "AWS", name := "AWSManagedRulesAnonymousIpList" }
      overrideAction := OverrideAction.none
      visibilityConfig :=
        { cloudWatchMetricsEnabled := true
          metricName := "AnonymousIpList"
          sampledRequestsEnabled := true } }
  , { name := "AWS-AWSManagedRulesAmazonIpReputationList"
      priority := 3
      statement := { vendorName := "AWS", name := "AWSManagedRulesAmazonIpReputationList" }
      overrideAction := OverrideAction.none
      visibilityConfig :=
        { cloudWatchMetricsEnabled := true
          metricName := "AmazonIpReputationList"
          sampledRequestsEnabled := true } }
  , { name := "AWS-AWSManagedRulesKnownBadInputsRuleSet"
      priority := 4
      statement := { vendorName := "AWS", name := "AWSManagedRulesKnownBadInputsRuleSet" }
      overrideAction := OverrideAction.none
      visibilityConfig :=
        { cloudWatchMetricsEnabled := true
          metricName := "KnownBadInputsRuleSet"
          sampledRequestsEnabled := true } }
  , { name := "AWS-AWSManagedRulesSQLiRuleSet"
      priority := 5
      statement := { vendorName := "AWS", name := "AWSManagedRulesSQLiRuleSet" }
      overrideAction := OverrideAction.none
      visibilityConfig :=
        { cloudWatchMetricsEnabled := true
          metricName := "SQLiRuleSet"
          sampledRequestsEnabled := true } }
  ]

/-- `webAcl` (source lines 170-271). -/
def webAcl : CfnWebACL :=
  { aclScope := "CLOUDFRONT"
    defaultAction := DefaultAction.allow
    visibilityConfig :=
      { cloudWatchMetricsEnabled := true
        metricName := "WebsiteACL"
        sampledRequestsEnabled := true }
    rules := webAclRules }

/-- `distribution` (source lines 282-297). -/
def distribution : Distribution :=
  { defaultRootObject := "index.html"
    defaultBehavior :=
      { origin := Origin.s3BucketOriginWithOAC "WebsiteBucket" }
    additionalBehaviors := []
    enableLogging := true
    webAclId := { targetId := "WebsiteACL" } }

/-- The props accepted by the `AleezaStack` constructor.  The source
forwards them to `super` only; no resource inside the stack reads them. -/
structure StackProps where
  stackName : Option String := Option.none
  account : Option String := Option.none
  region : Option String := Option.none
  deriving DecidableEq, Repr

/-- Synthesizing `AleezaStack` (constructor, source lines 123-305): the
declared resource graph, in declaration order.  The props only reach the
`super` call, so the declared resources do not depend on them. -/
def synthAleezaStack (_props : StackProps) : List Resource :=
  [ Resource.bucket "WebsiteBucket" website_bucket
  , Resource.bucketDeployment "WebsiteFiles" websiteFiles
  , Resource.webAcl "WebsiteACL" webAcl
  , Resource.distribution "WebsiteDistribution" distribution ]

/-- The stack's declared resources (any props: they are not read). -/
def aleezaStackResources : List Resource :=
  synthAleezaStack {}

/-- The resource diff between two synthesized graphs: resources present
in one graph and absent from the other. -/
def stackDiff (old new : List Resource) : List Resource :=
  new.filter (fun r => ¬ r ∈ old) ++ old.filter (fun r => ¬ r ∈ new)

/-- Modelled from the spec: the `BucketDeployment` implementation lives
in `aws-cdk-lib/aws-s3-deployment`, not under `src/`.  "given a local
directory and a Storage Resource reference, synchronizes contents on
each provisioning run.  Pruning removes remote objects with no local
counterpart."  The result holds every local object key, plus — only when
pruning is off — the remote keys that have no local counterpart. -/
def syncBucket (prune : Bool) (localFiles remoteObjects : List String) : List String :=
  localFiles ++ (if prune then [] else remoteObjects.filter (fun k => ¬ k ∈ localFiles))

/-- Modelled from the spec: `retainOnDelete` semantics live in
`aws-cdk-lib/aws-s3-deployment`, not under `src/`.  "retention (if set)
prevents deletion of uploaded content when the step is later removed
from the declaration": removing the step keeps the uploaded objects when
the flag is set and deletes them otherwise. -/
def removeStepEffect (retainOnDelete : Bool) (remoteObjects : List String) : List String :=
  if retainOnDelete then remoteObjects else []

/-- Insert a rule into a list sorted by ascending priority. -/
def insertByPriority (r : WafRule) : List WafRule → List WafRule
  | [] => [r]
  | x :: xs =>
      if r.priority ≤ x.priority then r :: x :: xs else x :: insertByPriority r xs

/-- Modelled from the spec: WAF rule evaluation lives in the provider,
not under `src/`.  "apply rules in ascending priority order" — the
evaluation sequence is the declared rules sorted by ascending priority. -/
def wafEvalOrder (rules : List WafRule) : List WafRule :=
  rules.foldr insertByPriority []

/-- Modelled from the spec: teardown is "an explicit teardown
invocation (subject to each resource's retention flag)", executed by the
provisioning engine, not under `src/`.  A bucket is removed on teardown
exactly when its removal policy is `DESTROY`. -/
def teardownRemovesBucket (b : Bucket) : Bool :=
  b.removalPolicy = RemovalPolicy.DESTROY

/-- Modelled from the spec: teardown deletes the objects inside the
bucket exactly when the bucket itself is removed and `autoDeleteObjects`
forces the objects out with it. -/
def teardownRemovesObjects (b : Bucket) : Bool :=
  teardownRemovesBucket b && b.autoDeleteObjects

/-- A TypeScript module of this repository: its path (relative to
`src/`, without extension) and the class names it exports. -/
structure TsModule where
  path : String
  exportedClasses : List String
  deriving DecidableEq, Repr

/-- The source files under `src/` and the classes they export:
`bin/cloud-foundation-project.ts` exports `AleezaStack` (line 118) and
is the only TypeScript file in the repository — there is no
`lib/cloud-foundation-project-stack` module. -/
def repoModules : List TsModule :=
  [ { path := "bin/cloud-foundation-project"
      exportedClasses := ["AleezaStack"] } ]

/-- Every stack class defined anywhere in the repository. -/
def repoStackClasses : List String :=
  (repoModules.map TsModule.exportedClasses).flatten

/-- Whether an import of `symbol` from `modulePath` resolves to a
definition in this repository. -/
def resolveImport (modulePath symbol : String) : Bool :=
  repoModules.any (fun m => m.path == modulePath && m.exportedClasses.contains symbol)

/-- The entry point's import (line 17): symbol
`CloudFoundationProjectStack` from `../lib/cloud-foundation-project-stack`,
i.e. `lib/cloud-foundation-project-stack` relative to `src/`. -/
def entryImportModule : String := "lib/cloud-foundation-project-stack"

/-- The class name the entry point imports and instantiates
(lines 17 and 43). -/
def entryImportSymbol : String := "CloudFoundationProjectStack"

/-- The declared bucket resources of a graph carrying a construct id. -/
def declaredBucketsWithId (rs : List Resource) (i : String) : List Resource :=
  rs.filter fun r => match r with
    | Resource.bucket j _ => j == i
    | _ => false

/-- The declared web-ACL resources of a graph carrying a construct id. -/
def declaredAclsWithId (rs : List Resource) (i : String) : List Resource :=
  rs.filter fun r => match r with
    | Resource.webAcl j _ => j == i
    | _ => false

/-- A provisioning schedule (a linear order on construct ids) respects
the declared dependencies when every declared resource appears in it and
every reference a resource makes is provisioned strictly earlier. -/
def respectsDependencies (order : List String) : Prop :=
  (∀ r ∈ aleezaStackResources, r.cid ∈ order) ∧
  ∀ r ∈ aleezaStackResources, ∀ dep ∈ r.references,
    order.indexOf dep < order.indexOf r.cid

/-- C1: whenever the Edge Distribution is declared, every
public-access-block flag of the declared Storage Resource is enabled
(`BLOCK_ALL`) and every origin of the distribution fetches from that
bucket through Origin Access Control, so the bucket is reachable only
through the distribution's scoped access mechanism. -/
theorem private_origin_invariant
    (_h : Resource.distribution "WebsiteDistribution" distribution ∈ aleezaStackResources) :
    website_bucket.blockPublicAccess = BlockPublicAccess.BLOCK_ALL ∧
    website_bucket.blockPublicAccess.blockPublicAcls = true ∧
    website_bucket.blockPublicAccess.blockPublicPolicy = true ∧
    website_bucket.blockPublicAccess.ignorePublicAcls = true ∧
    website_bucket.blockPublicAccess.restrictPublicBuckets = true ∧
    Resource.bucket "WebsiteBucket" website_bucket ∈ aleezaStackResources ∧
    ∀ o ∈ distribution.origins, o.usesOAC = true ∧ o.bucketId = "WebsiteBucket" := by
  decide

/-- Witness for C1: the Edge Distribution is in fact declared, and the
invariant's conclusion holds for it. -/
theorem private_origin_invariant_witness :
    website_bucket.blockPublicAccess = BlockPublicAccess.BLOCK_ALL ∧
    ∀ o ∈ distribution.origins, o.usesOAC = true ∧ o.bucketId = "WebsiteBucket" := by
  have h := private_origin_invariant (by decide)
  exact ⟨h.1, h.2.2.2.2.2.2⟩

/-- C2: the priorities of the declared web-ACL rules are pairwise
distinct, and the evaluation order (ascending priority, modelled by
`wafEvalOrder`) lists them lowest priority first — here it coincides
with the declaration order, which is already sorted ascending. -/
theorem acl_priorities_distinct_ascending :
    (webAcl.rules.map WafRule.priority).Nodup ∧
    List.Pairwise (fun a b => a.priority < b.priority) (wafEvalOrder webAcl.rules) ∧
    wafEvalOrder webAcl.rules = webAcl.rules := by
  decide

/-- C3: the Edge Distribution binds exactly one origin; that origin
uses a scoped credential (Origin Access Control) and resolves to exactly
one declared Storage Resource; exactly one declared Access-Control
Policy Set matches the attached identifier; and the declaration carries
the default entry document name and the logging flag. -/
theorem distribution_binding :
    distribution.origins.length = 1 ∧
    (∀ o ∈ distribution.origins, o.usesOAC = true) ∧
    (∀ o ∈ distribution.origins,
      (declaredBucketsWithId aleezaStackResources o.bucketId).length = 1) ∧
    (declaredAclsWithId aleezaStackResources distribution.webAclId.targetId).length = 1 ∧
    distribution.defaultRootObject = "index.html" ∧
    distribution.enableLogging = true := by
  decide

/-- C4: the declared Storage Resource is encrypted at rest (SSE-S3),
blocks all public access, is versioned, and enforces HTTPS-only
transport. -/
theorem storage_resource_flags :
    website_bucket.encryption = BucketEncryption.S3_MANAGED ∧
    website_bucket.blockPublicAccess = BlockPublicAccess.BLOCK_ALL ∧
    website_bucket.versioned = true ∧
    website_bucket.enforceSSL = true := by
  decide

/-- C5: the declared Asset Sync Step has pruning enabled and retention
set; removing a local file and re-running the sync removes the object
when pruning is on and keeps it when pruning is off; and with the
retention flag set, removing the step itself deletes none of the
uploaded objects. -/
theorem asset_sync_prune_and_retention
    (localFiles remoteObjects : List String) (f : String) (hf : f ∈ localFiles) :
    websiteFiles.prune = true ∧
    websiteFiles.retainOnDelete = true ∧
    ¬ f ∈ syncBucket true (localFiles.filter (fun g => g != f))
        (syncBucket true localFiles remoteObjects) ∧
    f ∈ syncBucket false (localFiles.filter (fun g => g != f))
        (syncBucket false localFiles remoteObjects) ∧
    removeStepEffect websiteFiles.retainOnDelete
        (syncBucket websiteFiles.prune localFiles remoteObjects) =
      syncBucket websiteFiles.prune localFiles remoteObjects := by
  refine ⟨rfl, rfl, ?_, ?_, rfl⟩
  · simp [syncBucket, List.mem_filter]
  · simp [syncBucket, List.mem_filter, List.mem_append, hf]

/-- Witness for C5 at `localFiles = ["a", "f"]`, `remoteObjects = []`,
`f = "f"`. -/
theorem asset_sync_prune_and_retention_witness :
    ¬ "f" ∈ syncBucket true ((["a", "f"]).filter (fun g => g != "f"))
        (syncBucket true ["a", "f"] []) ∧
    "f" ∈ syncBucket false ((["a", "f"]).filter (fun g => g != "f"))
        (syncBucket false ["a", "f"] []) := by
  have h := asset_sync_prune_and_retention ["a", "f"] [] "f" (by decide)
  exact ⟨h.2.2.1, h.2.2.2.1⟩

/-- C6: in every provisioning schedule that respects the declared
dependencies, the Storage Resource precedes the Edge Distribution and
the Asset Sync Step, and the Access-Control Policy Set precedes the
Edge Distribution. -/
theorem provisioning_order (order : List String)
    (h : respectsDependencies order) :
    order.indexOf "WebsiteBucket" < order.indexOf "WebsiteDistribution" ∧
    order.indexOf "WebsiteACL" < order.indexOf "WebsiteDistribution" ∧
    order.indexOf "WebsiteBucket" < order.indexOf "WebsiteFiles" := by
  obtain ⟨-, hdep⟩ := h
  refine ⟨?_, ?_, ?_⟩
  · exact hdep (Resource.distribution "WebsiteDistribution" distribution)
      (by decide) "WebsiteBucket" (by decide)
  · exact hdep (Resource.distribution "WebsiteDistribution" distribution)
      (by decide) "WebsiteACL" (by decide)
  · exact hdep (Resource.bucketDeployment "WebsiteFiles" websiteFiles)
      (by decide) "WebsiteBucket" (by decide)

/-- Witness for C6: the declaration-order schedule respects the
dependencies, and the orderings follow. -/
theorem provisioning_order_witness :
    (["WebsiteBucket", "WebsiteFiles", "WebsiteACL", "WebsiteDistribution"]).indexOf
        "WebsiteBucket" <
      (["WebsiteBucket", "WebsiteFiles", "WebsiteACL", "WebsiteDistribution"]).indexOf
        "WebsiteDistribution" ∧
    (["WebsiteBucket", "WebsiteFiles", "WebsiteACL", "WebsiteDistribution"]).indexOf
        "WebsiteACL" <
      (["WebsiteBucket", "WebsiteFiles", "WebsiteACL", "WebsiteDistribution"]).indexOf
        "WebsiteDistribution" ∧
    (["WebsiteBucket", "WebsiteFiles", "WebsiteACL", "WebsiteDistribution"]).indexOf
        "WebsiteBucket" <
      (["WebsiteBucket", "WebsiteFiles", "WebsiteACL", "WebsiteDistribution"]).indexOf
        "WebsiteFiles" :=
  provisioning_order ["WebsiteBucket", "WebsiteFiles", "WebsiteACL", "WebsiteDistribution"]
    (by constructor <;> decide)

/-- C7: synthesizing the stack twice from the same props yields the
same declared resource graph, so the diff between the two syntheses is
empty. -/
theorem declaration_idempotent (props : StackProps) :
    stackDiff (synthAleezaStack props) (synthAleezaStack props) = [] ∧
    synthAleezaStack props = synthAleezaStack props := by
  exact ⟨rfl, rfl⟩

/-- C8: the entry point's import of `CloudFoundationProjectStack` from
`lib/cloud-foundation-project-stack` resolves to no definition in this
repository, and the only stack class the repository defines is
`AleezaStack`. -/
theorem entry_import_unresolvable :
    resolveImport entryImportModule entryImportSymbol = false ∧
    repoStackClasses = ["AleezaStack"] ∧
    ¬ entryImportSymbol ∈ repoStackClasses := by
  decide

/-- C9: the web ACL's default action is allow, its scope is CLOUDFRONT,
and each of the five declared rules has override action `none` with
CloudWatch metrics and sampled requests enabled and references an
AWS-managed rule group. -/
theorem web_acl_configuration :
    webAcl.defaultAction = DefaultAction.allow ∧
    webAcl.aclScope = "CLOUDFRONT" ∧
    webAcl.rules.length = 5 ∧
    ∀ r ∈ webAcl.rules,
      r.overrideAction = OverrideAction.none ∧
      r.visibilityConfig.cloudWatchMetricsEnabled = true ∧
      r.visibilityConfig.sampledRequestsEnabled = true ∧
      r.statement.vendorName = "AWS" := by
  decide

/-- C10: the Storage Resource's removal policy is `DESTROY` with
`autoDeleteObjects` enabled, so teardown removes the bucket and its
objects, even though the Asset Sync Step sets `retainOnDelete`. -/
theorem bucket_lifecycle_destroy :
    website_bucket.removalPolicy = RemovalPolicy.DESTROY ∧
    website_bucket.autoDeleteObjects = true ∧
    websiteFiles.retainOnDelete = true ∧
    teardownRemovesBucket website_bucket = true ∧
    teardownRemovesObjects website_bucket = true := by
  decide

end CloudFoundation
